import Mathlib

/-
Shallow embedding of the uxnrs virtual machine core:
  src/uxn/stack.rs  (Stack)
  src/uxn.rs        (Uxn, eval_vector, load_rom)

Modelling conventions:
- Rust u8 / u16 values are Nat; an `as u8` cast is `% 256`, an
  `as u16` cast of a byte is the identity.
- A Vec of bytes is a List Nat whose last element is the top of the stack
  (Vec::push appends at the end, Vec::pop removes the end).
- Fallible operations return Option: `none` models a Rust panic, namely
  the explicit panics (stack underflow, todo on DEI/DEO), an
  out-of-bounds array index, and checked integer overflow.  The
  repository is exercised through its cargo test suite, whose default
  profile compiles `+`, `-`, `*`, `/` on u16 with overflow and
  divide-by-zero checks that panic; those operators are therefore
  modelled as checked (add16, sub16, mul16, div16).  The explicitly
  wrapping operation pc.wrapping_add_signed is modelled with `% 65536`.
- Memory, a Rust [u8; 0x10000], is a total function Nat → Nat consulted
  only through memRead / memWrite, which carry the bounds check that the
  array index operator performs.
-/

namespace Uxnrs

/-- Stack from src/uxn/stack.rs: a Vec of bytes (last element is the
top), a keep flag and a pop offset used by keep-mode reads. -/
structure Stack where
  data : List Nat
  keep_mode : Bool
  pop_offset : Nat
  deriving Repr, DecidableEq

namespace Stack

/-- Stack::new. -/
def new : Stack := ⟨[], false, 0⟩

/-- Stack::set_keep_mode: resets pop_offset to 0 and sets the flag. -/
def set_keep_mode (s : Stack) (mode : Bool) : Stack :=
  { s with pop_offset := 0, keep_mode := mode }

/-- Stack::push_byte: appends the byte and increments pop_offset.
The source has no capacity check. -/
def push_byte (s : Stack) (byte : Nat) : Stack :=
  { s with data := s.data ++ [byte], pop_offset := s.pop_offset + 1 }

/-- Stack::pop_byte.  On the empty stack the source panics
("Stack underflow"), modelled as none.  In keep mode it reads
data[len - pop_offset - 1] and increments pop_offset; when
pop_offset + 1 exceeds the length that index computation underflows
usize and the access panics, modelled as none.  Otherwise it pops the
last byte. -/
def pop_byte (s : Stack) : Option (Nat × Stack) :=
  if s.data.length = 0 then none
  else if s.keep_mode then
    if s.pop_offset + 1 ≤ s.data.length then
      some (s.data.getD (s.data.length - s.pop_offset - 1) 0,
            { s with pop_offset := s.pop_offset + 1 })
    else none
  else
    some (s.data.getD (s.data.length - 1) 0, { s with data := s.data.dropLast })

/-- Stack::push_short: pushes the high byte, then the low byte. -/
def push_short (s : Stack) (short : Nat) : Stack :=
  (s.push_byte ((short >>> 8) % 256)).push_byte (short % 256)

/-- Stack::pop_short: pops the low byte, then the high byte, and
returns (upper << 8) + lower. -/
def pop_short (s : Stack) : Option (Nat × Stack) := do
  let (lower, s1) ← s.pop_byte
  let (upper, s2) ← s1.pop_byte
  pure ((upper <<< 8) + lower, s2)

end Stack

/-- Checked u16 addition: Rust a + b on u16 under the default test
profile panics on overflow. -/
def add16 (a b : Nat) : Option Nat :=
  if a + b < 65536 then some (a + b) else none

/-- Checked u16 subtraction: panics when b exceeds a. -/
def sub16 (a b : Nat) : Option Nat :=
  if b ≤ a then some (a - b) else none

/-- Checked u16 multiplication: panics on overflow. -/
def mul16 (a b : Nat) : Option Nat :=
  if a * b < 65536 then some (a * b) else none

/-- Checked u16 division: Rust a / b panics when b = 0. -/
def div16 (a b : Nat) : Option Nat :=
  if b = 0 then none else some (a / b)

/-- CPU state from src/uxn.rs: 64 kB memory, program counter, working
and return stacks.  The device table is omitted: the only opcodes that
would consult it, DEI and DEO, are todo panics in the source. -/
structure Uxn where
  mem : Nat → Nat
  pc : Nat
  wst : Stack
  rst : Stack

namespace Uxn

/-- Uxn::new. -/
def new : Uxn :=
  { mem := fun _ => 0, pc := 0x100, wst := Stack.new, rst := Stack.new }

/-- Indexing self.mem[i] on the [u8; 0x10000] array: panics (none) out
of bounds. -/
def memRead (u : Uxn) (i : Nat) : Option Nat :=
  if i < 0x10000 then some (u.mem i) else none

/-- Writing self.mem[i] = v: panics (none) out of bounds. -/
def memWrite (u : Uxn) (i v : Nat) : Option Uxn :=
  if i < 0x10000 then
    some { u with mem := fun a => if a = i then v else u.mem a }
  else none

/-- Uxn::load_rom: copies the ROM into memory starting at 0x0100 and
resets the PC to 0x0100.  The slice copy panics (none) if the ROM would
run past the end of memory. -/
def load_rom (u : Uxn) (rom : List Nat) : Option Uxn :=
  if 0x100 + rom.length ≤ 0x10000 then
    some { u with
           mem := fun a =>
             if 0x100 ≤ a ∧ a < 0x100 + rom.length then rom.getD (a - 0x100) 0
             else u.mem a,
           pc := 0x100 }
  else none

/-- Reading u16::from_be_bytes([mem[pc], mem[pc + 1]]), as done in the
JCI, JMI and JSI branches of eval_vector. -/
def readImm16 (u : Uxn) : Option Nat := do
  let high ← u.memRead u.pc
  let low ← u.memRead (u.pc + 1)
  pure ((high <<< 8) + low)

/-- The peek! macro: in short mode reads mem[addr] (high) and
mem[addr + 1] (low) big-endian; otherwise reads one byte.  The index
addr + 1 is computed in usize, so at addr = 0xFFFF the second read is
out of bounds and panics. -/
def peek (u : Uxn) (sm : Bool) (addr : Nat) : Option Nat :=
  if sm then do
    let high ← u.memRead addr
    let low ← u.memRead (addr + 1)
    pure ((high <<< 8) + low)
  else u.memRead addr

/-- The poke! macro: in short mode writes the high byte at addr and the
low byte at addr + 1 (out of bounds at addr = 0xFFFF); otherwise writes
value as u8 at addr. -/
def poke (u : Uxn) (sm : Bool) (addr value : Nat) : Option Uxn :=
  if sm then do
    let u1 ← u.memWrite addr ((value >>> 8) % 256)
    u1.memWrite (addr + 1) (value % 256)
  else u.memWrite addr (value % 256)

/-- The jump! macro: in short mode assigns the address to the PC;
otherwise self.pc += addr with checked u16 addition.  Note the byte
offset is zero-extended by the pop (pop_byte() as u16), not
sign-extended. -/
def jump (u : Uxn) (sm : Bool) (addr : Nat) : Option Uxn :=
  if sm then some { u with pc := addr }
  else do
    let p ← add16 u.pc addr
    pure { u with pc := p }

end Uxn

/-- The pop! macro: pop_short in short mode, otherwise pop_byte as u16. -/
def popm (sm : Bool) (s : Stack) : Option (Nat × Stack) :=
  if sm then s.pop_short else s.pop_byte

/-- The push! macro: push_short in short mode, otherwise push_byte of
value as u8. -/
def pushm (sm : Bool) (s : Stack) (value : Nat) : Stack :=
  if sm then s.push_short value else s.push_byte (value % 256)

/-- Models pc.wrapping_add_signed(offset as i16) where offset is the i8
reinterpretation of the byte b (used by LDR and STR). -/
def wrapAddSigned (pc b : Nat) : Nat :=
  (pc + 65536 + b - (if 128 ≤ b then 256 else 0)) % 65536

namespace Uxn

/-- End of one iteration of the eval_vector loop body:
wst.set_keep_mode(false) on the physical working stack, then the next
iteration begins.  The Bool is false because execution continues. -/
def finishInstr (u : Uxn) : Option (Bool × Uxn) :=
  some (false, { u with wst := u.wst.set_keep_mode false })

/-- One iteration of the eval_vector loop body of src/uxn.rs: fetch the
byte at the PC, increment the PC, physically swap the stacks when bit 6
is set (the source never swaps them back), enable keep mode on the
working stack when bit 7 is set, then dispatch on the low five bits.
Returns some (true, u) when the instruction was BRK (eval_vector
returns), some (false, u) to continue, and none when the source
panics. -/
def step (u0 : Uxn) : Option (Bool × Uxn) := do
  let instr := u0.mem u0.pc
  let pc1 ← add16 u0.pc 1
  let u1 : Uxn := { u0 with pc := pc1 }
  let u2 : Uxn :=
    if instr &&& 0x40 ≠ 0 then { u1 with wst := u1.rst, rst := u1.wst } else u1
  let u3 : Uxn :=
    if instr &&& 0x80 ≠ 0 then { u2 with wst := u2.wst.set_keep_mode true } else u2
  let sm : Bool := instr &&& 0x20 ≠ 0
  match instr &&& 0x1f with
  | 0x00 =>
    match instr >>> 5 with
    | 0 => some (true, u3)
    | 1 => do
      let (cond, w) ← popm sm u3.wst
      let u4 : Uxn := { u3 with wst := w }
      let u5 ← if cond ≠ 0 then do
          let imm ← u4.readImm16
          let p ← add16 u4.pc imm
          pure { u4 with pc := p }
        else pure u4
      let p2 ← add16 u5.pc 2
      finishInstr { u5 with pc := p2 }
    | 2 => do
      let addr ← u3.readImm16
      let t ← add16 addr 2
      let p ← add16 u3.pc t
      finishInstr { u3 with pc := p }
    | 3 => do
      let p2 ← add16 u3.pc 2
      let u4 : Uxn := { u3 with rst := u3.rst.push_short p2 }
      let addr ← u4.readImm16
      let t ← add16 addr 2
      let p ← add16 u4.pc t
      finishInstr { u4 with pc := p }
    | _ => do
      let value ← u3.peek sm u3.pc
      let p ← add16 u3.pc (if sm then 2 else 1)
      let u4 : Uxn := { u3 with pc := p }
      finishInstr { u4 with wst := pushm sm u4.wst value }
  | 0x01 => do
    let (a, w) ← popm sm u3.wst
    let t ← add16 a 1
    finishInstr { u3 with wst := pushm sm w t }
  | 0x02 => do
    let (_, w) ← popm sm u3.wst
    finishInstr { u3 with wst := w }
  | 0x03 => do
    let (a, w1) ← popm sm u3.wst
    let (_, w2) ← popm sm w1
    finishInstr { u3 with wst := pushm sm w2 a }
  | 0x04 => do
    let (a, w1) ← popm sm u3.wst
    let (b, w2) ← popm sm w1
    finishInstr { u3 with wst := pushm sm (pushm sm w2 a) b }
  | 0x05 => do
    let (a, w1) ← popm sm u3.wst
    let (b, w2) ← popm sm w1
    let (c, w3) ← popm sm w2
    finishInstr { u3 with wst := pushm sm (pushm sm (pushm sm w3 b) a) c }
  | 0x06 => do
    let (a, w1) ← popm sm u3.wst
    finishInstr { u3 with wst := pushm sm (pushm sm w1 a) a }
  | 0x07 => do
    let (a, w1) ← popm sm u3.wst
    let (b, w2) ← popm sm w1
    finishInstr { u3 with wst := pushm sm (pushm sm (pushm sm w2 b) a) b }
  | 0x08 => do
    let (b, w1) ← popm sm u3.wst
    let (a, w2) ← popm sm w1
    finishInstr { u3 with wst := pushm sm w2 (if a = b then 1 else 0) }
  | 0x09 => do
    let (b, w1) ← popm sm u3.wst
    let (a, w2) ← popm sm w1
    finishInstr { u3 with wst := pushm sm w2 (if a ≠ b then 1 else 0) }
  | 0x0a => do
    let (b, w1) ← popm sm u3.wst
    let (a, w2) ← popm sm w1
    finishInstr { u3 with wst := pushm sm w2 (if b < a then 1 else 0) }
  | 0x0b => do
    let (b, w1) ← popm sm u3.wst
    let (a, w2) ← popm sm w1
    finishInstr { u3 with wst := pushm sm w2 (if a < b then 1 else 0) }
  | 0x0c => do
    let (addr, w) ← popm sm u3.wst
    let u4 ← Uxn.jump { u3 with wst := w } sm addr
    finishInstr u4
  | 0x0d => do
    let (addr, w1) ← popm sm u3.wst
    let (cond, w2) ← w1.pop_byte
    let u4 : Uxn := { u3 with wst := w2 }
    let u5 ← if cond ≠ 0 then Uxn.jump u4 sm addr else pure u4
    finishInstr u5
  | 0x0e => do
    let (addr, w) ← popm sm u3.wst
    let u4 : Uxn := { u3 with wst := w, rst := u3.rst.push_short u3.pc }
    let u5 ← Uxn.jump u4 sm addr
    finishInstr u5
  | 0x0f => do
    let (a, w) ← popm sm u3.wst
    finishInstr { u3 with wst := w, rst := pushm sm u3.rst a }
  | 0x10 => do
    let (addr, w1) ← u3.wst.pop_byte
    let value ← u3.peek sm addr
    finishInstr { u3 with wst := pushm sm w1 value }
  | 0x11 => do
    let (addr, w1) ← u3.wst.pop_byte
    let (value, w2) ← popm sm w1
    let u4 ← Uxn.poke { u3 with wst := w2 } sm addr value
    finishInstr u4
  | 0x12 => do
    let (off, w1) ← u3.wst.pop_byte
    let addr := wrapAddSigned u3.pc off
    let value ← u3.peek sm addr
    finishInstr { u3 with wst := pushm sm w1 value }
  | 0x13 => do
    let (off, w1) ← u3.wst.pop_byte
    let addr := wrapAddSigned u3.pc off
    let (value, w2) ← popm sm w1
    let u4 ← Uxn.poke { u3 with wst := w2 } sm addr value
    finishInstr u4
  | 0x14 => do
    let (addr, w1) ← u3.wst.pop_short
    let value ← u3.peek sm addr
    finishInstr { u3 with wst := pushm sm w1 value }
  | 0x15 => do
    let (addr, w1) ← u3.wst.pop_short
    let (value, w2) ← popm sm w1
    let u4 ← Uxn.poke { u3 with wst := w2 } sm addr value
    finishInstr u4
  | 0x16 => none
  | 0x17 => none
  | 0x18 => do
    let (b, w1) ← popm sm u3.wst
    let (a, w2) ← popm sm w1
    let t ← add16 a b
    finishInstr { u3 with wst := pushm sm w2 t }
  | 0x19 => do
    let (b, w1) ← popm sm u3.wst
    let (a, w2) ← popm sm w1
    let t ← sub16 a b
    finishInstr { u3 with wst := pushm sm w2 t }
  | 0x1a => do
    let (b, w1) ← popm sm u3.wst
    let (a, w2) ← popm sm w1
    let t ← mul16 a b
    finishInstr { u3 with wst := pushm sm w2 t }
  | 0x1b => do
    let (b, w1) ← popm sm u3.wst
    let (a, w2) ← popm sm w1
    let t ← div16 a b
    finishInstr { u3 with wst := pushm sm w2 t }
  | 0x1c => do
    let (b, w1) ← popm sm u3.wst
    let (a, w2) ← popm sm w1
    finishInstr { u3 with wst := pushm sm w2 (a &&& b) }
  | 0x1d => do
    let (b, w1) ← popm sm u3.wst
    let (a, w2) ← popm sm w1
    finishInstr { u3 with wst := pushm sm w2 (a ||| b) }
  | 0x1e => do
    let (b, w1) ← popm sm u3.wst
    let (a, w2) ← popm sm w1
    finishInstr { u3 with wst := pushm sm w2 (a ^^^ b) }
  | 0x1f => do
    let (a, w1) ← popm sm u3.wst
    let (shift, w2) ← w1.pop_byte
    let right := shift &&& 0xf
    let left := shift >>> 4
    let result ← if sm then some (((a >>> right) <<< left) % 65536)
      else if right < 8 ∧ left < 8 then some ((((a % 256) >>> right) <<< left) % 256)
      else none
    finishInstr { u3 with wst := pushm sm w2 result }
  | _ => none

/-- The loop of Uxn::eval_vector, with fuel: returns the state at BRK,
and none on a panic or when the fuel runs out. -/
def evalLoop : Nat → Uxn → Option Uxn
  | 0, _ => none
  | fuel + 1, u =>
    match step u with
    | none => none
    | some (true, v) => some v
    | some (false, v) => evalLoop fuel v

/-- Uxn::eval_vector: sets the PC to addr and runs the loop. -/
def eval_vector (u : Uxn) (fuel addr : Nat) : Option Uxn :=
  evalLoop fuel { u with pc := addr }

end Uxn

/-- Test harness of test_cpu_opcodes (the stack_assert macro): a fresh
CPU, load_rom, eval_vector from 0x0100. -/
def run_rom (fuel : Nat) (rom : List Nat) : Option Uxn := do
  let u ← Uxn.new.load_rom rom
  u.eval_vector fuel 0x100


/-- Sanity check for pop_byte in keep mode on a concrete stack. -/
example : (Stack.pop_byte ⟨[0x12, 0x34, 0x56], true, 1⟩) =
    some (0x34, ⟨[0x12, 0x34, 0x56], true, 2⟩) := by decide

/-- Sanity check: the first scenario of test_cpu_opcodes, LIT 12. -/
example : (run_rom 5 [0x80, 0x12]).map (fun u => u.wst.data) = some [0x12] := by
  decide

/-- Sanity check: the JMP scenario of test_cpu_opcodes,
LIT 02 JMP LIT 12 LIT 34. -/
example : (run_rom 10 [0x80, 0x02, 0x0c, 0x80, 0x12, 0x80, 0x34]).map
    (fun u => u.wst.data) = some [0x34] := by decide

/-- ROM for the C1 scenario: LIT 0x12; LITr 0x34; BRK. -/
def c1Rom : List Nat := [0x80, 0x12, 0xc0, 0x34, 0x00]

/-- CPU state about to execute DIV (0x1b) with b = 0 on top of the
working stack and a = 1 below it. -/
def divZeroState : Uxn :=
  { mem := fun _ => 0x1b, pc := 0x100,
    wst := ⟨[0x01, 0x00], false, 0⟩, rst := Stack.new }

/-- CPU state about to execute LDA2 (0x34) with address 0xFFFF on the
working stack. -/
def oobPeekState : Uxn :=
  { mem := fun a => if a = 0x100 then 0x34 else 0, pc := 0x100,
    wst := ⟨[0xff, 0xff], false, 0⟩, rst := Stack.new }

/-- CPU state about to execute INC2 (0x21) with 0xFFFF on the working
stack. -/
def incOverflowState : Uxn :=
  { mem := fun a => if a = 0x100 then 0x21 else 0, pc := 0x100,
    wst := ⟨[0xff, 0xff], false, 0⟩, rst := Stack.new }

/-- CPU state at pc = 0x0102 about to execute byte-mode JMP (0x0c) with
offset byte 0xFE on the working stack. -/
def jmpBackState : Uxn :=
  { mem := fun a => if a = 0x102 then 0x0c else 0, pc := 0x102,
    wst := ⟨[0xfe], false, 0⟩, rst := Stack.new }

/-- CPU state about to execute JCI (0x20) with the bytes 0x00 (deep)
and 0x01 (top) on the working stack and a zero immediate. -/
def jciState : Uxn :=
  { mem := fun a => if a = 0x100 then 0x20 else 0, pc := 0x100,
    wst := ⟨[0x00, 0x01], false, 0⟩, rst := Stack.new }

/-- ROM for the C8 scenario: LIT2 0x1234; ADDk; BRK. -/
def c8Rom : List Nat := [0xa0, 0x12, 0x34, 0x98, 0x00]

/-- Popping right after a push with keep mode off returns the pushed
byte and restores the data (pop_offset stays advanced by the push). -/
theorem pop_byte_push_byte (s : Stack) (x : Nat) (hk : s.keep_mode = false) :
    (s.push_byte x).pop_byte = some (x, { s with pop_offset := s.pop_offset + 1 }) := by
  obtain ⟨d, k, off⟩ := s
  subst hk
  simp [Stack.push_byte, Stack.pop_byte, List.getD_append_right, List.dropLast_concat]

/-- Pushing two bytes and then popping a short, with keep mode off,
returns the big-endian combination and restores the data. -/
theorem pop_short_push_two (s : Stack) (hi lo : Nat) (hk : s.keep_mode = false) :
    ((s.push_byte hi).push_byte lo).pop_short =
      some ((hi <<< 8) + lo, { s with pop_offset := s.pop_offset + 2 }) := by
  obtain ⟨d, k, off⟩ := s
  subst hk
  simp [Stack.push_short, Stack.pop_short, Stack.push_byte, Stack.pop_byte,
        List.getD_append_right, List.dropLast_concat]
  rw [List.getElem_append_right (by omega)]
  simp

/-- In keep mode, a pop performed after a push returns the same byte as
a pop performed before the push: the keep-mode read commutes with
push_byte because push_byte advances pop_offset along with the length. -/
theorem pop_byte_push_byte_keep (s : Stack) (b : Nat) (hk : s.keep_mode = true)
    (hoff : s.pop_offset < s.data.length) :
    (s.push_byte b).pop_byte = s.pop_byte.map (fun p => (p.1, p.2.push_byte b)) := by
  obtain ⟨d, k, off⟩ := s
  subst hk
  simp only at hoff
  have h1 : ¬((d ++ [b]).length = 0) := by simp
  have h2 : ¬(d.length = 0) := by omega
  have h3 : off + 1 + 1 ≤ (d ++ [b]).length := by
    rw [List.length_append, List.length_singleton]; omega
  have h4 : off + 1 ≤ d.length := hoff
  simp only [Stack.push_byte, Stack.pop_byte, if_neg h1, if_neg h2, if_pos h3, if_pos h4,
    if_true, eq_self_iff_true, Option.map_some]
  rw [show (d ++ [b]).length - (off + 1) - 1 = d.length - off - 1 by
        rw [List.length_append, List.length_singleton]; omega,
      List.getD_append _ _ _ _ (by omega)]
  simp

/-- C1: the return-flag stack swap is NOT scoped to the instruction.
Running LIT 0x12; LITr 0x34; BRK leaves the working stack holding 0x34
and the return stack holding 0x12: eval_vector physically swaps the two
stacks for the r=1 instruction and never swaps them back, so the next
instruction observes the stacks still exchanged, against the claim that
it sees the original contents (working [0x12], return [0x34]). -/
theorem c1_return_swap_not_restored :
    (run_rom 10 c1Rom).map (fun u => (u.wst.data, u.rst.data)) =
      some ([0x34], [0x12]) ∧
    (([0x34], [0x12]) : List Nat × List Nat) ≠ ([0x12], [0x34]) :=
  ⟨by rfl, by decide⟩

/-- C2: DIV with b = 0 does not push 0 and continue; the source
computes a / b with the checked Rust division, which panics on a zero
divisor, so the step faults. -/
theorem c2_div_by_zero_panics : Uxn.step divZeroState = none := by rfl

/-- C3: a 16-bit memory access at address 0xFFFF faults instead of
wrapping: the peek! macro indexes mem[addr as usize + 1] = mem[0x10000],
which is out of bounds of the 64 kB array, so the step panics rather
than reading the second byte at address 0x0000. -/
theorem c3_short_access_at_ffff_panics : Uxn.step oobPeekState = none := by rfl

/-- C4: INC on 0xFFFF in short mode does not push 0x0000: the source
computes a + 1 with unchecked u16 addition, which under the overflow
checks of the default test build panics instead of wrapping, so the
step faults. -/
theorem c4_inc2_overflow_panics : Uxn.step incOverflowState = none := by rfl

/-- C5 counterexample: push_byte on a stack already holding 255 bytes
succeeds and makes the depth 256; the source has no capacity check, so
no StackOverflow fault occurs where the claim requires one. -/
theorem c5_push_byte_depth_255_no_fault :
    (Stack.push_byte ⟨List.replicate 255 0, false, 0⟩ 0x42).data.length = 256 := by
  show (List.replicate 255 0 ++ [0x42]).length = 256
  rw [List.length_append, List.length_replicate, List.length_singleton]

/-- C5 amended: push_byte never fails: for every stack it appends the
byte and increments pop_offset, with no depth bound and no StackOverflow
fault. -/
theorem c5_push_byte_unbounded (st : Stack) (b : Nat) :
    (st.push_byte b).data = st.data ++ [b] ∧
    (st.push_byte b).pop_offset = st.pop_offset + 1 :=
  ⟨rfl, rfl⟩

/-- C6: byte-mode JMP zero-extends the popped offset instead of
treating it as an 8-bit signed offset: with PC at 0x0103 after the
fetch and offset byte 0xFE, the source sets PC to 0x0103 + 0x00FE =
0x0201, not to 0x0103 - 2 = 0x0101 as the claim requires. -/
theorem c6_jmp_byte_offset_zero_extended :
    (Uxn.step jmpBackState).map (fun p => p.2.pc) = some 0x201 ∧
      (0x201 : Nat) ≠ 0x101 :=
  ⟨by rfl, by decide⟩

/-- C7: JCI pops a short, not a byte: its base byte 0x20 has the short
flag set, so the pop! macro removes two bytes from the working stack.
Starting from [0x00, 0x01] the stack ends empty (and the nonzero short
0x0001 takes the branch, PC ending at 0x0103), whereas the claim
requires exactly one byte removed, leaving [0x00]. -/
theorem c7_jci_pops_two_bytes :
    (Uxn.step jciState).map (fun p => (p.2.wst.data, p.2.pc)) =
      some ([], 0x103) := by rfl

/-- C8: loading a0 12 34 98 00 at 0x0100 and evaluating the vector at
0x0100 terminates at BRK with working stack [0x12, 0x34, 0x46]: ADD
with keep = 1 reads both operands non-destructively and pushes their
sum. -/
theorem c8_lit2_addk_scenario :
    (run_rom 10 c8Rom).map (fun u => u.wst.data) = some [0x12, 0x34, 0x46] := by rfl

/-- C9: with keep mode off, push_short then pop_short returns the
pushed short and restores the data, and pushing bytes hi then lo
followed by pop_short returns (hi <<< 8) ||| lo, also restoring the
data.  Only pop_offset, which is meaningful only in keep mode, has
advanced. -/
theorem c9_push_pop_short_round_trip (st : Stack) (s hi lo : Nat)
    (hk : st.keep_mode = false) (hs : s < 65536) (hhi : hi < 256) (hlo : lo < 256) :
    (st.push_short s).pop_short =
      some (s, { st with pop_offset := st.pop_offset + 2 }) ∧
    ((st.push_byte hi).push_byte lo).pop_short =
      some ((hi <<< 8) ||| lo, { st with pop_offset := st.pop_offset + 2 }) := by
  constructor
  · rw [Stack.push_short, pop_short_push_two st _ _ hk]
    have hv : (((s >>> 8) % 256) <<< 8) + s % 256 = s := by
      simp only [Nat.shiftLeft_eq, Nat.shiftRight_eq_div_pow]
      omega
    rw [hv]
  · rw [pop_short_push_two st _ _ hk]
    have hor : (hi <<< 8) + lo = (hi <<< 8) ||| lo := by
      have h8 : lo < 2 ^ 8 := by norm_num; exact hlo
      rw [Nat.shiftLeft_eq, Nat.mul_comm, Nat.mul_add_lt_is_or h8 hi]
    rw [hor]

/-- C9 witness at a concrete input. -/
theorem c9_push_pop_short_round_trip_witness :
    (Stack.new.keep_mode = false ∧ (0x1234 : Nat) < 65536 ∧ (0x56 : Nat) < 256 ∧
      (0x78 : Nat) < 256) ∧
    ((Stack.new.push_short 0x1234).pop_short =
      some (0x1234, { Stack.new with pop_offset := Stack.new.pop_offset + 2 }) ∧
     ((Stack.new.push_byte 0x56).push_byte 0x78).pop_short =
      some ((0x56 <<< 8) ||| 0x78, { Stack.new with pop_offset := Stack.new.pop_offset + 2 })) :=
  ⟨⟨rfl, by decide, by decide, by decide⟩,
    c9_push_pop_short_round_trip Stack.new 0x1234 0x56 0x78 rfl (by decide) (by decide)
      (by decide)⟩

/-- C10: push_byte increments the length and pop_offset together, so
length - pop_offset is invariant; consequently, in keep mode a pop
performed after an intervening push returns the same byte as before the
push (it skips the newly pushed byte), and the resulting stack is the
pushed image of the pre-push pop result, so later pops keep reading
progressively deeper pre-push bytes. -/
theorem c10_push_byte_keep_invariant (st : Stack) (b : Nat)
    (hk : st.keep_mode = true) (hoff : st.pop_offset < st.data.length) :
    (st.push_byte b).data.length = st.data.length + 1 ∧
    (st.push_byte b).pop_offset = st.pop_offset + 1 ∧
    (st.push_byte b).data.length - (st.push_byte b).pop_offset =
      st.data.length - st.pop_offset ∧
    (st.push_byte b).pop_byte = st.pop_byte.map (fun p => (p.1, p.2.push_byte b)) := by
  refine ⟨?_, rfl, ?_, pop_byte_push_byte_keep st b hk hoff⟩
  · simp [Stack.push_byte]
  · simp [Stack.push_byte]

/-- C10 witness at a concrete input: the keep-mode scenario of the
test_stack test. -/
theorem c10_push_byte_keep_invariant_witness :
    ((⟨[0x12, 0x34], true, 0⟩ : Stack).keep_mode = true ∧
      (⟨[0x12, 0x34], true, 0⟩ : Stack).pop_offset <
        (⟨[0x12, 0x34], true, 0⟩ : Stack).data.length) ∧
    ((Stack.push_byte ⟨[0x12, 0x34], true, 0⟩ 0x56).data.length =
        (⟨[0x12, 0x34], true, 0⟩ : Stack).data.length + 1 ∧
     (Stack.push_byte ⟨[0x12, 0x34], true, 0⟩ 0x56).pop_offset =
        (⟨[0x12, 0x34], true, 0⟩ : Stack).pop_offset + 1 ∧
     (Stack.push_byte ⟨[0x12, 0x34], true, 0⟩ 0x56).data.length -
        (Stack.push_byte ⟨[0x12, 0x34], true, 0⟩ 0x56).pop_offset =
        (⟨[0x12, 0x34], true, 0⟩ : Stack).data.length -
          (⟨[0x12, 0x34], true, 0⟩ : Stack).pop_offset ∧
     (Stack.push_byte ⟨[0x12, 0x34], true, 0⟩ 0x56).pop_byte =
        (Stack.pop_byte ⟨[0x12, 0x34], true, 0⟩).map
          (fun p => (p.1, p.2.push_byte 0x56))) :=
  ⟨⟨rfl, by decide⟩,
    c10_push_byte_keep_invariant ⟨[0x12, 0x34], true, 0⟩ 0x56 rfl (by decide)⟩

end Uxnrs
